import Mathlib

/-!
Verification of the DPorch guest interop bridge fragment.

The sources embedded here:
* `src/DPorch.Runtime/Python/Code/pickle_serialize.py` — `serialize`
* `src/DPorch.Runtime/Python/Code/pickle_deserialize.py` — `deserialize`
* `tests/.../PythonGILTestScripts/test_functions.py` — guest test module
* `examples/iteration_rate_limiter.py` — rate-limiter stage

Guest (Python) values are embedded as the inductive `PyObj`.  The pickle
library is external to the repository; it is embedded as an executable
encoder/decoder pair (`pickle_dumps` / `pickle_loads`) with pickle's
documented interface behaviour: `dumps` fails on unpicklable values
(open resource handles), `loads` fails on malformed byte payloads, and
`loads (dumps v)` recovers `v`.  Payload bytes are modelled as `List Nat`.
-/

/-- A guest-native (Python) runtime value.  `unpicklable` stands for values
the pickle encoding cannot represent (e.g. an open socket handle). -/
inductive PyObj where
  | none : PyObj
  | bool (b : Bool) : PyObj
  | int (i : Int) : PyObj
  | str (s : String) : PyObj
  | list (xs : List PyObj) : PyObj
  | unpicklable (desc : String) : PyObj

mutual

/-- Embedding of `pickle.dumps`: encodes a guest value to a tagged byte
payload; fails (pickle `PicklingError`) on values pickle cannot represent. -/
def pickle_dumps : PyObj → Except String (List Nat)
  | .none => .ok [0]
  | .bool b => .ok [1, cond b 1 0]
  | .int i => .ok [2, if i < 0 then 1 else 0, i.natAbs]
  | .str s => .ok (3 :: s.length :: s.data.map Char.toNat)
  | .list xs =>
    match dumpsList xs with
    | .error e => .error e
    | .ok body => .ok (4 :: xs.length :: body)
  | .unpicklable desc => .error ("cannot pickle " ++ desc)

/-- Encodes the elements of a guest list in sequence. -/
def dumpsList : List PyObj → Except String (List Nat)
  | [] => .ok []
  | x :: xs =>
    match pickle_dumps x with
    | .error e => .error e
    | .ok p =>
      match dumpsList xs with
      | .error e => .error e
      | .ok ps => .ok (p ++ ps)

end

/-- Splits off exactly `n` leading bytes, failing on truncated input. -/
def takeExact : Nat → List Nat → Except String (List Nat × List Nat)
  | 0, l => .ok ([], l)
  | _ + 1, [] => .error "truncated pickle data"
  | n + 1, x :: l =>
    match takeExact n l with
    | .error e => .error e
    | .ok (a, b) => .ok (x :: a, b)

mutual

/-- Fuel-indexed decoder for one encoded guest value; returns the decoded
value and the unconsumed remainder of the payload.  Tags: 0 `None`,
1 bool, 2 int (sign byte then magnitude), 3 string (length then char
codes), 4 list (length then elements). -/
def loadsN : Nat → List Nat → Except String (PyObj × List Nat)
  | 0, _ => .error "pickle data too deeply nested"
  | _ + 1, 0 :: rest => .ok (.none, rest)
  | _ + 1, 1 :: 0 :: rest => .ok (.bool false, rest)
  | _ + 1, 1 :: 1 :: rest => .ok (.bool true, rest)
  | _ + 1, 2 :: 0 :: m :: rest => .ok (.int (m : Int), rest)
  | _ + 1, 2 :: 1 :: m :: rest => .ok (.int (-(m : Int)), rest)
  | _ + 1, 3 :: n :: rest =>
    match takeExact n rest with
    | .error e => .error e
    | .ok (codes, rest₂) => .ok (.str (String.mk (codes.map Char.ofNat)), rest₂)
  | fuel + 1, 4 :: n :: rest =>
    match loadsMany fuel n rest with
    | .error e => .error e
    | .ok (vs, rest₂) => .ok (.list vs, rest₂)
  | _ + 1, _ => .error "malformed pickle data"

/-- Decodes exactly `n` consecutive encoded guest values. -/
def loadsMany : Nat → Nat → List Nat → Except String (List PyObj × List Nat)
  | 0, _, _ => .error "pickle data too deeply nested"
  | _ + 1, 0, input => .ok ([], input)
  | fuel + 1, n + 1, input =>
    match loadsN fuel input with
    | .error e => .error e
    | .ok (v, rest) =>
      match loadsMany fuel n rest with
      | .error e => .error e
      | .ok (vs, rest₂) => .ok (v :: vs, rest₂)

end

/-- Embedding of `pickle.loads`: decodes one guest value from the front of
the payload (pickle stops at its STOP opcode, ignoring trailing bytes);
fails (pickle `UnpicklingError`) on malformed payloads. -/
def pickle_loads (data : List Nat) : Except String PyObj :=
  match loadsN (data.length + 1) data with
  | .error e => .error e
  | .ok (v, _) => .ok v

/-- `serialize` from `pickle_serialize.py`: `return pickle.dumps(obj)`. -/
def serialize (obj : PyObj) : Except String (List Nat) :=
  pickle_dumps obj

/-- `deserialize` from `pickle_deserialize.py`: iterates the source→payload
mapping in order, decoding each payload with `pickle.loads`; an exception
raised by `pickle.loads` propagates, aborting the whole call, which is
modelled by the `Except` error short-circuiting. -/
def deserialize : List (String × List Nat) → Except String (List (String × PyObj))
  | [] => .ok []
  | (source, data) :: rest =>
    match pickle_loads data with
    | .error e => .error e
    | .ok v =>
      match deserialize rest with
      | .error e => .error e
      | .ok r => .ok ((source, v) :: r)

/-- Structural induction for `PyObj` with a member-wise hypothesis for the
nested list constructor. -/
def PyObj.strongInd (motive : PyObj → Prop)
    (hnone : motive .none)
    (hbool : ∀ b, motive (.bool b))
    (hint : ∀ i, motive (.int i))
    (hstr : ∀ s, motive (.str s))
    (hlist : ∀ xs, (∀ x ∈ xs, motive x) → motive (.list xs))
    (hunp : ∀ d, motive (.unpicklable d)) : ∀ v, motive v
  | .none => hnone
  | .bool b => hbool b
  | .int i => hint i
  | .str s => hstr s
  | .list xs => hlist xs (fun x hx =>
      PyObj.strongInd motive hnone hbool hint hstr hlist hunp x)
  | .unpicklable d => hunp d
termination_by v => sizeOf v
decreasing_by
  have := List.sizeOf_lt_of_mem hx
  simp only [PyObj.list.sizeOf_spec]
  omega

mutual

/-- Decoder fuel sufficient to decode one encoding of `v`. -/
def fuelNeed : PyObj → Nat
  | .list xs => fuelNeedList xs + 1
  | _ => 1

/-- Decoder fuel sufficient to decode the encodings of all of `xs` in
sequence (`loadsMany` consumes one fuel level per element). -/
def fuelNeedList : List PyObj → Nat
  | [] => 1
  | x :: xs => max (fuelNeed x) (fuelNeedList xs) + 1

end

theorem takeExact_append (a b : List Nat) : takeExact a.length (a ++ b) = .ok (a, b) := by
  induction a with
  | nil => rfl
  | cons x xs ih => simp [takeExact, ih]

theorem fuelNeed_pos (v : PyObj) : 1 ≤ fuelNeed v := by
  cases v <;> simp [fuelNeed]

theorem dumpsList_fuelNeed (xs : List PyObj)
    (IH : ∀ x ∈ xs, ∀ p, pickle_dumps x = .ok p → fuelNeed x ≤ p.length) :
    ∀ body, dumpsList xs = .ok body → fuelNeedList xs ≤ body.length + 1 := by
  induction xs with
  | nil =>
    intro body h
    simp only [dumpsList, Except.ok.injEq] at h
    subst h
    simp [fuelNeedList]
  | cons x xs ih =>
    intro body h
    cases hx : pickle_dumps x with
    | error e => rw [dumpsList, hx] at h; cases h
    | ok p =>
      cases hxs : dumpsList xs with
      | error e => rw [dumpsList, hx, hxs] at h; cases h
      | ok ps =>
        rw [dumpsList, hx, hxs] at h
        injection h with h
        subst h
        have h1 := IH x (by simp) p hx
        have h2 := ih (fun y hy => IH y (by simp [hy])) ps hxs
        have h3 := fuelNeed_pos x
        simp only [fuelNeedList, List.length_append]
        omega

theorem dumps_fuelNeed (v : PyObj) :
    ∀ p, pickle_dumps v = .ok p → fuelNeed v ≤ p.length := by
  induction v using PyObj.strongInd with
  | hnone =>
    intro p h
    simp only [pickle_dumps, Except.ok.injEq] at h
    subst h; simp [fuelNeed]
  | hbool b =>
    intro p h
    simp only [pickle_dumps, Except.ok.injEq] at h
    subst h; simp [fuelNeed]
  | hint i =>
    intro p h
    simp only [pickle_dumps, Except.ok.injEq] at h
    subst h; simp [fuelNeed]
  | hstr s =>
    intro p h
    simp only [pickle_dumps, Except.ok.injEq] at h
    subst h; simp [fuelNeed]
  | hlist xs IH =>
    intro p h
    cases hb : dumpsList xs with
    | error e => rw [pickle_dumps, hb] at h; cases h
    | ok body =>
      rw [pickle_dumps, hb] at h
      injection h with h
      subst h
      have := dumpsList_fuelNeed xs IH body hb
      simp only [fuelNeed, List.length_cons]
      omega
  | hunp d =>
    intro p h
    rw [pickle_dumps] at h
    cases h

theorem loadsMany_dumpsList (xs : List PyObj)
    (IH : ∀ x ∈ xs, ∀ (p rest : List Nat) (fuel : Nat),
      pickle_dumps x = .ok p → fuelNeed x ≤ fuel →
      loadsN fuel (p ++ rest) = .ok (x, rest)) :
    ∀ (body rest : List Nat) (fuel : Nat), dumpsList xs = .ok body →
      fuelNeedList xs ≤ fuel → loadsMany fuel xs.length (body ++ rest) = .ok (xs, rest) := by
  induction xs with
  | nil =>
    intro body rest fuel h hf
    simp only [dumpsList, Except.ok.injEq] at h
    subst h
    simp only [fuelNeedList] at hf
    obtain ⟨f, rfl⟩ : ∃ f, fuel = f + 1 := ⟨fuel - 1, by omega⟩
    rfl
  | cons x xs ih =>
    intro body rest fuel h hf
    cases hx : pickle_dumps x with
    | error e => rw [dumpsList, hx] at h; cases h
    | ok p =>
      cases hxs : dumpsList xs with
      | error e => rw [dumpsList, hx, hxs] at h; cases h
      | ok ps =>
        rw [dumpsList, hx, hxs] at h
        injection h with h
        subst h
        simp only [fuelNeedList] at hf
        obtain ⟨f, rfl⟩ : ∃ f, fuel = f + 1 := ⟨fuel - 1, by omega⟩
        have h1 := IH x (by simp) p (ps ++ rest) f hx (by omega)
        have h2 := ih (fun y hy => IH y (by simp [hy])) ps rest f hxs (by omega)
        simp only [List.length_cons, List.append_assoc]
        simp only [loadsMany, h1, h2]

theorem loads_dumps (v : PyObj) :
    ∀ (p rest : List Nat) (fuel : Nat), pickle_dumps v = .ok p → fuelNeed v ≤ fuel →
      loadsN fuel (p ++ rest) = .ok (v, rest) := by
  induction v using PyObj.strongInd with
  | hnone =>
    intro p rest fuel h hf
    simp only [pickle_dumps, Except.ok.injEq] at h
    subst h
    simp only [fuelNeed] at hf
    obtain ⟨f, rfl⟩ : ∃ f, fuel = f + 1 := ⟨fuel - 1, by omega⟩
    rfl
  | hbool b =>
    intro p rest fuel h hf
    simp only [pickle_dumps, Except.ok.injEq] at h
    subst h
    simp only [fuelNeed] at hf
    obtain ⟨f, rfl⟩ : ∃ f, fuel = f + 1 := ⟨fuel - 1, by omega⟩
    cases b <;> rfl
  | hint i =>
    intro p rest fuel h hf
    simp only [pickle_dumps, Except.ok.injEq] at h
    subst h
    simp only [fuelNeed] at hf
    obtain ⟨f, rfl⟩ : ∃ f, fuel = f + 1 := ⟨fuel - 1, by omega⟩
    by_cases hi : i < 0
    · have hv : -(i.natAbs : Int) = i := by omega
      simp only [if_pos hi, List.cons_append, List.nil_append]
      rw [loadsN]
      rw [hv]
    · have hv : (i.natAbs : Int) = i := by omega
      simp only [if_neg hi, List.cons_append, List.nil_append]
      rw [loadsN]
      rw [hv]
  | hstr s =>
    intro p rest fuel h hf
    simp only [pickle_dumps, Except.ok.injEq] at h
    subst h
    simp only [fuelNeed] at hf
    obtain ⟨f, rfl⟩ : ∃ f, fuel = f + 1 := ⟨fuel - 1, by omega⟩
    have hchars : (s.data.map Char.toNat).map Char.ofNat = s.data := by
      rw [List.map_map]
      have hcomp : Char.ofNat ∘ Char.toNat = id := funext Char.ofNat_toNat
      rw [hcomp, List.map_id]
    simp only [List.cons_append]
    rw [loadsN]
    rw [show s.length = (s.data.map Char.toNat).length by rw [List.length_map]; cases s; rfl,
      takeExact_append]
    simp only [hchars]
  | hlist xs IH =>
    intro p rest fuel h hf
    cases hb : dumpsList xs with
    | error e => rw [pickle_dumps, hb] at h; cases h
    | ok body =>
      rw [pickle_dumps, hb] at h
      injection h with h
      subst h
      simp only [fuelNeed] at hf
      obtain ⟨f, rfl⟩ : ∃ f, fuel = f + 1 := ⟨fuel - 1, by omega⟩
      have hmany := loadsMany_dumpsList xs IH body rest f hb (by omega)
      simp only [List.cons_append]
      rw [loadsN]
      simp only [hmany]
  | hunp d =>
    intro p rest fuel h hf
    rw [pickle_dumps] at h
    cases h

theorem pickle_loads_dumps (v : PyObj) (p : List Nat) (h : pickle_dumps v = .ok p) :
    pickle_loads p = .ok v := by
  have hd := dumps_fuelNeed v p h
  have hl := loads_dumps v p [] (p.length + 1) h (by omega)
  rw [List.append_nil] at hl
  simp only [pickle_loads, hl]

/-! ## Guest failures and the test module `test_functions.py` -/

/-- A guest-native failure object: its kind (exception class name) and
message. -/
structure PyErr where
  kind : String
  message : String

mutual

/-- Python `str()` applied to a guest value (used by f-string
interpolation).  List elements are rendered recursively. -/
def pyStr : PyObj → String
  | .none => "None"
  | .bool b => cond b "True" "False"
  | .int i => toString i
  | .str s => s
  | .list xs => "[" ++ pyStrList xs ++ "]"
  | .unpicklable desc => desc

/-- Comma-separated rendering of the elements of a guest list. -/
def pyStrList : List PyObj → String
  | [] => ""
  | [x] => pyStr x
  | x :: xs => pyStr x ++ ", " ++ pyStrList xs

end

/-- Python `+` on guest values: numeric addition (bools are ints),
string concatenation, list concatenation; anything else raises
`TypeError`. -/
def pyAdd : PyObj → PyObj → Except PyErr PyObj
  | .int a, .int b => .ok (.int (a + b))
  | .bool a, .int b => .ok (.int (cond a 1 0 + b))
  | .int a, .bool b => .ok (.int (a + cond b 1 0))
  | .bool a, .bool b => .ok (.int (cond a 1 0 + cond b 1 0))
  | .str a, .str b => .ok (.str (a ++ b))
  | .list a, .list b => .ok (.list (a ++ b))
  | _, _ => .error ⟨"TypeError", "unsupported operand type(s) for +"⟩

/-- `no_params` from `test_functions.py`: `return "no_params_called"`. -/
def no_params : List PyObj → Except PyErr PyObj :=
  fun _ => .ok (.str "no_params_called")

/-- `one_param` from `test_functions.py`:
`return f"received: \x7bx\x7d"`. -/
def one_param : List PyObj → Except PyErr PyObj
  | [x] => .ok (.str ("received: " ++ pyStr x))
  | _ => .error ⟨"TypeError", "wrong number of arguments"⟩

/-- `two_params` from `test_functions.py`: `return a + b`. -/
def two_params : List PyObj → Except PyErr PyObj
  | [a, b] => pyAdd a b
  | _ => .error ⟨"TypeError", "wrong number of arguments"⟩

/-- `three_params` from `test_functions.py`: `return a + b + c`. -/
def three_params : List PyObj → Except PyErr PyObj
  | [a, b, c] =>
    match pyAdd a b with
    | .error e => .error e
    | .ok ab => pyAdd ab c
  | _ => .error ⟨"TypeError", "wrong number of arguments"⟩

/-- `returns_none` from `test_functions.py`: `return None`. -/
def returns_none : List PyObj → Except PyErr PyObj :=
  fun _ => .ok .none

/-- `raises_error` from `test_functions.py`:
`raise ValueError("This is a test error")`. -/
def raises_error : List PyObj → Except PyErr PyObj :=
  fun _ => .error ⟨"ValueError", "This is a test error"⟩

/-- A name in a loaded script module is bound either to an invokable
callable (with its declared positional parameter count) or to a plain
non-invokable value. -/
inductive Attr where
  | callable (arity : Nat) (body : List PyObj → Except PyErr PyObj)
  | value (v : PyObj)

/-- The module namespace of `test_functions.py`, in source order. -/
def test_functions : List (String × Attr) :=
  [("no_params", .callable 0 no_params),
   ("one_param", .callable 1 one_param),
   ("two_params", .callable 2 two_params),
   ("three_params", .callable 3 three_params),
   ("returns_none", .callable 0 returns_none),
   ("raises_error", .callable 0 raises_error),
   ("not_callable", .value (.str "I am a string")),
   ("also_not_callable", .value (.int 42)),
   ("list_not_callable", .value (.list [.int 1, .int 2, .int 3]))]

/-! ## Function Resolver & Invoker and the Call Gate

The resolver, invoker and Call Gate are specified in §4.2–§4.3 of the
spec but their implementation is not part of the repository fragment
(only the guest-side test scripts they are exercised against are), so
they are modelled from the spec below. -/

/-- Modelled from the spec: the outcome of `resolve(module, name)` —
`NotFoundError` if `name` is absent from the module namespace,
`NotCallableError` if present but not invokable, otherwise the resolved
callable (the design notes require a tagged variant produced by a
capability check, never an invocation attempt). -/
inductive ResolveResult where
  | resolved (arity : Nat) (body : List PyObj → Except PyErr PyObj)
  | notFoundError
  | notCallableError

/-- Modelled from the spec: `resolve(module, name)` looks `name` up in
the module namespace and classifies the binding by a capability check
(the shape of the bound attribute), without invoking anything. -/
def resolve (module : List (String × Attr)) (name : String) : ResolveResult :=
  match module.lookup name with
  | Option.none => .notFoundError
  | some (.value _) => .notCallableError
  | some (.callable arity body) => .resolved arity body

/-- Modelled from the spec: the outcome of `invoke` — a guest value on
success, `ArityError` on an argument-count mismatch, and
`GuestRaisedError(kind, message)` when the callable's body raises. -/
inductive InvokeResult where
  | ok (v : PyObj)
  | arityError
  | guestRaisedError (kind message : String)

/-- Modelled from the spec: `invoke(callable, positional_args)` fails
with `ArityError` if the declared parameter count is incompatible with
the number of supplied arguments; a raise inside the body becomes a
structured `GuestRaisedError` carrying the guest failure's kind and
message, never a host fault. -/
def invoke (arity : Nat) (body : List PyObj → Except PyErr PyObj)
    (args : List PyObj) : InvokeResult :=
  if args.length = arity then
    match body args with
    | .ok v => .ok v
    | .error e => .guestRaisedError e.kind e.message
  else .arityError

/-- Modelled from the spec: the host-observable outcome of one
resolve-then-invoke exchange. -/
inductive CallOutcome where
  | notFoundError
  | notCallableError
  | ok (v : PyObj)
  | arityError
  | guestRaisedError (kind message : String)

/-- Modelled from the spec: resolve `name` in `module`, then invoke the
resolved callable on `args`; resolution errors are returned without any
invocation being attempted. -/
def callByName (module : List (String × Attr)) (name : String)
    (args : List PyObj) : CallOutcome :=
  match resolve module name with
  | .notFoundError => .notFoundError
  | .notCallableError => .notCallableError
  | .resolved arity body =>
    match invoke arity body args with
    | .ok v => .ok v
    | .arityError => .arityError
    | .guestRaisedError k m => .guestRaisedError k m

/-- Whether the Call Gate's single token is currently held. -/
structure GateState where
  held : Bool

/-- Modelled from the spec: one invocation under the Call Gate — the
gate is acquired around the call and released on every exit path,
including when the callable raises, so the returned gate state is
always the released one. -/
def callUnderGate (module : List (String × Attr)) (name : String)
    (args : List PyObj) (_g : GateState) : CallOutcome × GateState :=
  (callByName module name args, { held := false })

/-- Modelled from the spec: a sequence of invocations, each performed
under the Call Gate in submission order. -/
def runCalls (module : List (String × Attr)) :
    GateState → List (String × List PyObj) → List CallOutcome × GateState
  | g, [] => ([], g)
  | g, (name, args) :: rest =>
    let (r, g₂) := callUnderGate module name args g
    let (rs, g₃) := runCalls module g₂ rest
    (r :: rs, g₃)

/-! ## The iteration rate limiter stage `iteration_rate_limiter.py` -/

/-- First console line of the rate limiter's one-time notice. -/
def limiter_msg1 : String :=
  "\x1b[33mNote:\x1b[0m Pipeline(s) have been configured with \x1b[36m\"examples\\iteration_rate_limiter.py\"\x1b[0m to limit the iteration rate."

/-- Second console line of the rate limiter's one-time notice. -/
def limiter_msg2 : String :=
  "To remove this limiter, locate pipeline configuration(s) containing the rate limiter in the \x1b[1mscripts\x1b[0m property and remove its script path."

/-- The module-level mutable state of `iteration_rate_limiter.py`. -/
structure LimiterState where
  did_show_msg : Bool

/-- Top-level initialisation: `did_show_msg = False`. -/
def limiterInit : LimiterState := ⟨false⟩

/-- `step` from `iteration_rate_limiter.py`: if `did_show_msg` is not
set, print the two notice lines and set it; sleep one second (real time
is not modelled); return `input_data` unchanged.  Result: (printed
lines, return value, new module state). -/
def step (s : LimiterState) (input_data : PyObj) :
    List String × PyObj × LimiterState :=
  if ¬ s.did_show_msg then
    ([limiter_msg1, limiter_msg2], input_data, ⟨true⟩)
  else
    ([], input_data, s)

/-- Repeated `step` invocations on the same stage module, accumulating
printed lines and threading the module state. -/
def runLimiter : LimiterState → List PyObj → List String × LimiterState
  | s, [] => ([], s)
  | s, x :: xs =>
    let (out, _, s₂) := step s x
    let (outs, s₃) := runLimiter s₂ xs
    (out ++ outs, s₃)

/-- Once the notice has been shown, further `step` calls print nothing
and leave the flag set. -/
theorem runLimiter_shown (xs : List PyObj) :
    runLimiter ⟨true⟩ xs = ([], ⟨true⟩) := by
  induction xs with
  | nil => rfl
  | cons x xs ih => simp [runLimiter, step, ih]

/-! ## Claims -/

/-- C1, counterexample: decoding is not per-channel independent.  With
channel "a" carrying a well-formed payload and channel "b" a malformed
one, `deserialize` aborts the whole decode with the decoding error; it
does not return a mapping in which the "a" entry carries a value and
the "b" entry carries the error. -/
theorem deserialize_not_per_channel_independent :
    pickle_loads [2, 0, 3] = .ok (PyObj.int 3) ∧
    pickle_loads [99] = .error "malformed pickle data" ∧
    deserialize [("a", [2, 0, 3]), ("b", [99])] =
      .error "malformed pickle data" :=
  ⟨rfl, rfl, rfl⟩

/-- C1, amended: if any channel's payload is malformed, `deserialize`
propagates a decoding error for the whole call — the decode is aborted
and no output mapping is produced. -/
theorem deserialize_aborts_on_malformed (m : List (String × List Nat))
    (h : ∃ e ∈ m, ∃ err, pickle_loads e.2 = .error err) :
    ∃ err, deserialize m = .error err := by
  induction m with
  | nil => obtain ⟨e, he, _⟩ := h; cases he
  | cons hd rest ih =>
    obtain ⟨source, data⟩ := hd
    cases hl : pickle_loads data with
    | error er => exact ⟨er, by rw [deserialize, hl]⟩
    | ok v =>
      obtain ⟨e, he, err, herr⟩ := h
      rcases List.mem_cons.mp he with rfl | hmem
      · rw [hl] at herr; cases herr
      · obtain ⟨er₂, hr⟩ := ih ⟨e, hmem, err, herr⟩
        exact ⟨er₂, by rw [deserialize, hl, hr]⟩

/-- C1, witness for the amended claim at a concrete malformed input. -/
theorem deserialize_aborts_on_malformed_witness :
    ∃ err, deserialize [("a", [2, 0, 3]), ("b", [99])] = .error err :=
  deserialize_aborts_on_malformed _
    ⟨("b", [99]), by simp, "malformed pickle data", rfl⟩

/-- C2: for every guest value `v` that `serialize` encodes without
error, deserializing the serialized form of `v` as the payload of any
source channel `c` yields `v` back under the guest equality (which the
embedding realises as equality of `PyObj`). -/
theorem deserialize_serialize (c : String) (v : PyObj) (p : List Nat)
    (h : serialize v = .ok p) :
    deserialize [(c, p)] = .ok [(c, v)] := by
  have hv := pickle_loads_dumps v p h
  simp only [deserialize, hv]

/-- C2, witness: a concrete round trip through the codec. -/
theorem deserialize_serialize_witness :
    deserialize [("a", [4, 2, 2, 0, 3, 3, 2, 97, 98])] =
      .ok [("a", PyObj.list [.int 3, .str "ab"])] :=
  deserialize_serialize "a" (PyObj.list [.int 3, .str "ab"]) _ rfl

/-- C3: whenever `deserialize` succeeds, the output mapping has exactly
the input mapping's source-channel keys, in order — no channel is
dropped or duplicated. -/
theorem deserialize_preserves_channels (m : List (String × List Nat))
    (r : List (String × PyObj)) (h : deserialize m = .ok r) :
    r.map Prod.fst = m.map Prod.fst := by
  induction m generalizing r with
  | nil =>
    simp only [deserialize, Except.ok.injEq] at h
    subst h; rfl
  | cons e rest ih =>
    obtain ⟨source, data⟩ := e
    cases hl : pickle_loads data with
    | error er => rw [deserialize, hl] at h; cases h
    | ok v =>
      cases hr : deserialize rest with
      | error er => rw [deserialize, hl, hr] at h; cases h
      | ok rs =>
        rw [deserialize, hl, hr] at h
        injection h with h
        subst h
        simp [ih rs hr]

/-- C3, witness: a concrete two-channel decode keeps both keys. -/
theorem deserialize_preserves_channels_witness :
    deserialize [("a", [0]), ("b", [2, 0, 5])] =
      .ok [("a", PyObj.none), ("b", PyObj.int 5)] ∧
    [("a", PyObj.none), ("b", PyObj.int 5)].map Prod.fst =
      [("a", ([0] : List Nat)), ("b", [2, 0, 5])].map Prod.fst :=
  ⟨rfl, deserialize_preserves_channels _ _ rfl⟩

/-- C4: decoding the exchange a ↦ 3, b ↦ 4 yields the guest ints 3 and
4, and the stage step function `two_params` applied to them returns
their sum 7, also when called through the resolver. -/
theorem two_params_sum_is_seven :
    deserialize [("a", [2, 0, 3]), ("b", [2, 0, 4])] =
      .ok [("a", PyObj.int 3), ("b", PyObj.int 4)] ∧
    two_params [.int 3, .int 4] = .ok (.int 7) ∧
    callByName test_functions "two_params" [.int 3, .int 4] =
      .ok (.int 7) :=
  ⟨rfl, rfl, rfl⟩

/-- C5: invoking `raises_error` yields `GuestRaisedError` with kind
`ValueError` and the verbatim message "This is a test error" as a
structured result (no host fault), the Call Gate ends released, and the
subsequent unrelated invocation of `no_params` succeeds. -/
theorem raises_error_releases_gate :
    runCalls test_functions ⟨false⟩
        [("raises_error", []), ("no_params", [])] =
      ([.guestRaisedError "ValueError" "This is a test error",
        .ok (.str "no_params_called")], ⟨false⟩) :=
  rfl

/-- C6: `resolve` on any module name bound to a non-invokable value
yields `NotCallableError`; the classification comes from the capability
check on the bound attribute, never from attempting an invocation. -/
theorem resolve_value_not_callable (module : List (String × Attr))
    (name : String) (v : PyObj)
    (h : module.lookup name = some (.value v)) :
    resolve module name = .notCallableError := by
  simp only [resolve, h]

/-- C6, witness: the three non-callable bindings of `test_functions.py`
(a string, a number and a list) all resolve to `NotCallableError`. -/
theorem resolve_value_not_callable_witness :
    resolve test_functions "not_callable" = .notCallableError ∧
    resolve test_functions "also_not_callable" = .notCallableError ∧
    resolve test_functions "list_not_callable" = .notCallableError :=
  ⟨resolve_value_not_callable _ _ (.str "I am a string") rfl,
   resolve_value_not_callable _ _ (.int 42) rfl,
   resolve_value_not_callable _ _ (.list [.int 1, .int 2, .int 3]) rfl⟩

/-- C7: invoking the zero-parameter callable `no_params` with zero
arguments succeeds with "no_params_called", and invoking it with one or
more arguments yields `ArityError` rather than a call or a fault. -/
theorem no_params_zero_arity (args : List PyObj) (h : args ≠ []) :
    invoke 0 no_params [] = .ok (.str "no_params_called") ∧
    invoke 0 no_params args = .arityError := by
  refine ⟨rfl, ?_⟩
  have hlen : args.length ≠ 0 := fun hc => h (List.length_eq_zero.mp hc)
  simp only [invoke, if_neg hlen]

/-- C7, witness: `no_params` invoked with one argument. -/
theorem no_params_zero_arity_witness :
    invoke 0 no_params [] = .ok (.str "no_params_called") ∧
    invoke 0 no_params [.int 1] = .arityError :=
  no_params_zero_arity [.int 1] (by simp)

/-- C8: invoking `returns_none` yields the guest's designated "no
value" result `None` as a successful outcome, not any error. -/
theorem returns_none_is_success :
    callByName test_functions "returns_none" [] = .ok PyObj.none :=
  rfl

/-- C9: the rate limiter's `step` returns its input argument unchanged,
whatever the current value of the module-level `did_show_msg` flag. -/
theorem step_returns_input_unchanged (s : LimiterState)
    (input_data : PyObj) : (step s input_data).2.1 = input_data := by
  by_cases h : s.did_show_msg <;> simp [step, h]

/-- C10: `did_show_msg` is monotone one-shot — it starts `False`, is
`True` after the first `step`, every later `step` leaves it `True`, and
across any run from the initial state the one-time message branch
prints at most its two notice lines (taken at most once). -/
theorem did_show_msg_one_shot :
    limiterInit.did_show_msg = false ∧
    (∀ x, ((step limiterInit x).2.2).did_show_msg = true) ∧
    (∀ s x, s.did_show_msg = true →
      ((step s x).2.2).did_show_msg = true) ∧
    (∀ inputs, (runLimiter limiterInit inputs).1.length ≤ 2) := by
  refine ⟨rfl, fun x => rfl, fun s x h => ?_, fun inputs => ?_⟩
  · simp [step, h]
  · cases inputs with
    | nil => simp [runLimiter]
    | cons x xs => simp [runLimiter, step, limiterInit, runLimiter_shown]

/-- C10, witness: a `step` from an already-set state keeps the flag. -/
theorem did_show_msg_one_shot_witness :
    ((step ⟨true⟩ PyObj.none).2.2).did_show_msg = true :=
  did_show_msg_one_shot.2.2.1 ⟨true⟩ PyObj.none rfl
